import Mathlib

/-!
Verification of the staged caption-evaluation pipeline and metric aggregator
of `cbc/dataset.py` (`evaluate_dataset`, `_save_json_tmp_file`,
`_extract_and_aggregate_metrics`), via a shallow embedding.

Samples are Python dicts; we embed them as a record whose optional fields are
`Option`-typed (Python `d.get(k) is None` covers both an absent key and an
explicit `null`, and the code treats the two alike, so both map to `none`).
Numbers are embedded as `Rat`, list indexing and dict subscripting as
`Except`-valued operations mirroring Python's `IndexError` / `KeyError` /
`TypeError` / `ZeroDivisionError`.  External engines (captioner, LM, image
plugins) are parameters of the pipeline configuration, as are the value
functions of the metric collaborators.
-/

/-- Python exceptions that the embedded code can raise. -/
inductive PyErr where
  | keyError (k : String)
  | indexError
  | typeError
  | zeroDivisionError
deriving DecidableEq

/-- A JSON value (the shape of `json.load` results and of plugin outputs). -/
inductive Json where
  | null
  | bool (b : Bool)
  | num (q : Rat)
  | str (s : String)
  | arr (elems : List Json)
  | obj (fields : List (String × Json))

/-- A value stored under a key of a sample's `scores` dict: either a scalar
metric or a nested one-level dict of scalars (`self_bleu`, `content_recall`). -/
inductive ScoreVal where
  | num (q : Rat)
  | map (m : List (String × Rat))

/-- First-match association-list lookup, the embedding of Python `d.get(k)` /
`d[k]` on dicts (whose keys are unique, so first-match agrees with dict
semantics). -/
def alookup {α : Type} : List (String × α) → String → Option α
  | [], _ => none
  | (k, v) :: rest, key => if k = key then some v else alookup rest key

/-- Embedding of Python dict assignment `d[k] = v`: replaces the value in
place if the key exists (dicts keep insertion order), appends otherwise. -/
def dictSet {α : Type} : List (String × α) → String → α → List (String × α)
  | [], k, v => [(k, v)]
  | (k', v') :: rest, k, v =>
    if k' = k then (k, v) :: rest else (k', v') :: dictSet rest k v

/-- Effectful map over a list in the `Except` monad: the embedding of a Python
list comprehension whose element expression may raise (the first raise aborts
the whole comprehension). -/
def mapE {α β : Type} (f : α → Except PyErr β) : List α → Except PyErr (List β)
  | [] => .ok []
  | a :: as => do
    let b ← f a
    let bs ← mapE f as
    pure (b :: bs)

/-- One sample of the dataset: the dict the pipeline mutates, with every field
that some stage may populate made `Option`-typed. -/
structure Sample where
  image_path : String
  references : List String
  candidates : Option (List String) := none
  baseline : Option String := none
  plugin_outputs : Option (List (String × Json)) := none
  candidate_summary : Option String := none
  candidate_summary_prompt : Option String := none
  reference_summary : Option String := none
  reference_summary_prompt : Option String := none
  scores : Option (List (String × ScoreVal)) := none
  hallucinated_object_count : Option Int := none
  object_count : Option Int := none

/-- The aggregated metrics report: group name to (metric name to value), in
the order the groups are written by `_extract_and_aggregate_metrics`. -/
def MetricsReport : Type := List (String × List (String × Rat))

/-- Where a scalar metric lives inside a sample's `scores` dict: directly
under a top-level key, or one level down inside a nested dict. -/
inductive ScorePath where
  | top (k : String)
  | nested (outer inner : String)

/-- Embedding of the subscript chain `s["scores"][k]` (resp.
`s["scores"][outer][inner]`) used by the aggregator's comprehensions: a
missing key raises `KeyError` naming exactly that key, and subscripting a
float with a string (or averaging dicts) raises `TypeError`. -/
def getScorePath (s : Sample) : ScorePath → Except PyErr Rat
  | .top k =>
    match s.scores with
    | none => .error (.keyError "scores")
    | some sc =>
      match alookup sc k with
      | none => .error (.keyError k)
      | some (.num q) => .ok q
      | some (.map _) => .error .typeError
  | .nested outer inner =>
    match s.scores with
    | none => .error (.keyError "scores")
    | some sc =>
      match alookup sc outer with
      | none => .error (.keyError outer)
      | some (.num _) => .error .typeError
      | some (.map m) =>
        match alookup m inner with
        | none => .error (.keyError inner)
        | some q => .ok q

/-- Embedding of `np.mean` on a list of floats (`nan` on the empty list never
escapes the aggregator, which fails on an empty sample list before returning). -/
def npMean (vs : List Rat) : Rat := vs.sum / (vs.length : Rat)

/-- Embedding of Python float division, which raises `ZeroDivisionError` on a
zero denominator. -/
def pyDiv (a b : Rat) : Except PyErr Rat :=
  if b = 0 then .error .zeroDivisionError else .ok (a / b)

/-- Embedding of the subscript `s[k]` for the two top-level hallucination
counter keys. -/
def pyGetCount (v : Option Int) (k : String) : Except PyErr Int :=
  match v with
  | none => .error (.keyError k)
  | some n => .ok n

/-- The `standard` group of `_extract_and_aggregate_metrics`: metric name and
the fixed path of the averaged per-sample scalar, in source order. -/
def standardKeys : List (String × ScorePath) :=
  [("candidate_summary_bleu_1", .top "candidate_summary_bleu_1"),
   ("candidate_summary_bleu_2", .top "candidate_summary_bleu_2"),
   ("candidate_summary_bleu_3", .top "candidate_summary_bleu_3"),
   ("candidate_summary_bleu_4", .top "candidate_summary_bleu_4"),
   ("candidate_summary_rouge", .top "candidate_summary_rouge"),
   ("candidate_summary_cider", .top "candidate_summary_cider"),
   ("reference_summary_bleu_1", .top "reference_summary_bleu_1"),
   ("reference_summary_bleu_2", .top "reference_summary_bleu_2"),
   ("reference_summary_bleu_3", .top "reference_summary_bleu_3"),
   ("reference_summary_bleu_4", .top "reference_summary_bleu_4"),
   ("reference_summary_rouge", .top "reference_summary_rouge"),
   ("reference_summary_cider", .top "reference_summary_cider"),
   ("baseline_bleu_1", .top "baseline_bleu_1"),
   ("baseline_bleu_2", .top "baseline_bleu_2"),
   ("baseline_bleu_3", .top "baseline_bleu_3"),
   ("baseline_bleu_4", .top "baseline_bleu_4"),
   ("baseline_rouge", .top "baseline_rouge"),
   ("baseline_cider", .top "baseline_cider"),
   ("candidate_summary_mauve", .top "candidate_summary_mauve"),
   ("reference_summary_mauve", .top "reference_summary_mauve"),
   ("baseline_mauve", .top "baseline_mauve"),
   ("candidate_self_bleu", .nested "self_bleu" "candidates"),
   ("reference_self_bleu", .nested "self_bleu" "references")]

/-- The `clip_recall` group: metric name and averaged scalar path, in source
order. -/
def clipRecallKeys : List (String × ScorePath) :=
  [("candidate_summary_clip_recall_rank", .top "candidate_summary_clip_recall_rank"),
   ("candidate_summary_clip_recall_mrr", .top "candidate_summary_clip_recall_mrr"),
   ("candidate_summary_clip_recall_at_1", .top "candidate_summary_clip_recall_at_1"),
   ("candidate_summary_clip_recall_at_5", .top "candidate_summary_clip_recall_at_5"),
   ("candidate_summary_clip_recall_at_10", .top "candidate_summary_clip_recall_at_10"),
   ("candidate_summary_clip_recall_max_rank", .top "candidate_summary_clip_recall_max_rank"),
   ("reference_summary_clip_recall_rank", .top "reference_summary_clip_recall_rank"),
   ("reference_summary_clip_recall_mrr", .top "reference_summary_clip_recall_mrr"),
   ("reference_summary_clip_recall_at_1", .top "reference_summary_clip_recall_at_1"),
   ("reference_summary_clip_recall_at_5", .top "reference_summary_clip_recall_at_5"),
   ("reference_summary_clip_recall_at_10", .top "reference_summary_clip_recall_at_10"),
   ("reference_summary_clip_recall_max_rank", .top "reference_summary_clip_recall_max_rank"),
   ("baseline_clip_recall_rank", .top "baseline_clip_recall_rank"),
   ("baseline_clip_recall_mrr", .top "baseline_clip_recall_mrr"),
   ("baseline_clip_recall_at_1", .top "baseline_clip_recall_at_1"),
   ("baseline_clip_recall_at_5", .top "baseline_clip_recall_at_5"),
   ("baseline_clip_recall_at_10", .top "baseline_clip_recall_at_10"),
   ("baseline_clip_recall_max_rank", .top "baseline_clip_recall_max_rank")]

/-- The `content_recall` group: every scalar sits inside the nested
`scores["content_recall"]` dict, in source order. -/
def contentRecallKeys : List (String × ScorePath) :=
  [("candidate_summary_noun_recall", .nested "content_recall" "candidate_summary_noun_recall"),
   ("candidate_summary_verb_recall", .nested "content_recall" "candidate_summary_verb_recall"),
   ("candidate_summary_noun_fuzzy_recall", .nested "content_recall" "candidate_summary_noun_fuzzy_recall"),
   ("candidate_summary_verb_fuzzy_recall", .nested "content_recall" "candidate_summary_verb_fuzzy_recall"),
   ("reference_summary_noun_recall", .nested "content_recall" "reference_summary_noun_recall"),
   ("reference_summary_verb_recall", .nested "content_recall" "reference_summary_verb_recall"),
   ("reference_summary_noun_fuzzy_recall", .nested "content_recall" "reference_summary_noun_fuzzy_recall"),
   ("reference_summary_verb_fuzzy_recall", .nested "content_recall" "reference_summary_verb_fuzzy_recall"),
   ("baseline_noun_recall", .nested "content_recall" "baseline_noun_recall"),
   ("baseline_verb_recall", .nested "content_recall" "baseline_verb_recall"),
   ("baseline_noun_fuzzy_recall", .nested "content_recall" "baseline_noun_fuzzy_recall"),
   ("baseline_verb_fuzzy_recall", .nested "content_recall" "baseline_verb_fuzzy_recall")]

/-- The three arithmetic-mean groups of the report, in the order the source's
dict literal evaluates them (the `hallucinations` group follows and is built
by dedicated code). -/
def meanGroups : List (String × List (String × ScorePath)) :=
  [("standard", standardKeys),
   ("clip_recall", clipRecallKeys),
   ("content_recall", contentRecallKeys)]

/-- Embedding of `_extract_and_aggregate_metrics`: evaluates, in the source's
order, the mean of each named scalar for the three mean groups, then the
hallucination ratios (Python `/`, raising `ZeroDivisionError` on a zero
denominator) and the mean hungarian-matching score, and assembles the report. -/
def extractAndAggregateMetrics (samples : List Sample) : Except PyErr MetricsReport := do
  let groups ← mapE (fun gks => do
    let ms ← mapE (fun kp => do
      let vs ← mapE (fun s => getScorePath s kp.2) samples
      pure (kp.1, npMean vs)) gks.2
    pure (gks.1, ms)) meanGroups
  let hcs ← mapE (fun s => pyGetCount s.hallucinated_object_count "hallucinated_object_count") samples
  let ocs ← mapE (fun s => pyGetCount s.object_count "object_count") samples
  let objPct ← pyDiv ((hcs.sum : Int) : Rat) ((ocs.sum : Int) : Rat)
  let hcs2 ← mapE (fun s => pyGetCount s.hallucinated_object_count "hallucinated_object_count") samples
  let capPct ← pyDiv (((hcs2.filter (fun n => 0 < n)).length : Nat) : Rat) ((samples.length : Nat) : Rat)
  let hvs ← mapE (fun s => getScorePath s (.top "hungarian_matching_score")) samples
  pure (groups ++
    [("hallucinations",
      [("hallucinated_objects_percentage", objPct),
       ("hallucinated_captions_percentage", capPct),
       ("average_hungarian_matching_score", npMean hvs)])])

/-- Lookup of one metric inside a report: group name, then metric name. -/
def lookupGroup (r : MetricsReport) (g k : String) : Option Rat :=
  match alookup r g with
  | none => none
  | some ms => alookup ms k

/-!
## Dataset loading

Embedding of step 1 of `evaluate_dataset`: `samples = json.load(f)` followed
by `if isinstance(samples, dict): samples = samples["samples"]`.  No other
validation of the root value happens at load time.
-/

/-- Embedding of the load step: a dict root is subscripted with `"samples"`
(raising `KeyError` when the key is absent); any non-dict root — a list, but
also a bare string, number, boolean or `null` — is passed through unchanged. -/
def loadSamples : Json → Except PyErr Json
  | .obj fields =>
    match alookup fields "samples" with
    | none => .error (.keyError "samples")
    | some v => .ok v
  | v => .ok v

/-!
## Checkpoint writing

Embedding of `_save_json_tmp_file` as a sequence of atomic file-system
operations: `open(f"{output_json_path}.tmp", "w")` truncates the target file
in place, then `json.dump` appends the serialized samples as a sequence of
chunks.  A crash may stop the sequence after any prefix.
-/

/-- The file system: a mapping from path to current content.  A path absent
from the list is a file that does not exist (reading it yields `""` once it
has been opened for writing, which creates it empty). -/
structure FsState where
  files : List (String × String)

/-- One atomic file operation. -/
inductive FsOp where
  | truncate (path : String)
  | append (path : String) (chunk : String)

/-- Applying one operation to the file system. -/
def applyOp (st : FsState) : FsOp → FsState
  | .truncate p => ⟨dictSet st.files p ""⟩
  | .append p c => ⟨dictSet st.files p ((alookup st.files p).getD "" ++ c)⟩

/-- Running a whole sequence of operations. -/
def runOps (st : FsState) (ops : List FsOp) : FsState :=
  ops.foldl applyOp st

/-- Embedding of `_save_json_tmp_file(output_json_path, samples)`: truncating
open of `output_json_path + ".tmp"`, then the serialized sample chunks are
appended to that same file.  There is no separate scratch file and no rename. -/
def saveJsonTmpOps (output_json_path : String) (chunks : List String) : List FsOp :=
  .truncate (output_json_path ++ ".tmp") :: chunks.map (.append (output_json_path ++ ".tmp"))

/-- The contents of a path after a run, `none` when the file does not exist. -/
def fileAt (st : FsState) (p : String) : Option String :=
  alookup st.files p

/-!
## The pipeline

Embedding of the stage loops of `evaluate_dataset`.  The external engines and
metric collaborators are fields of a `Config`; the four metric stage functions
from `cbc.metrics` are not part of `src/` and are modelled from the spec
(each one fills its score keys only where they are not already computed).
-/

/-- The pipeline configuration: CLI options plus the external collaborators
(captioning engine, image plugins, LM engine, prompt builder, caption
post-processor, and the per-sample value functions of the metric
collaborators). -/
structure Config where
  captioner : String → Nat → Rat → List String
  numCandidates : Nat
  temperature : Rat
  plugins : List (String × (String → Json))
  promptFor : List String → String → List Json → String
  lmBest : String → String
  postprocess : String → String
  prompt : String
  imageRoot : Option String
  baseScore : Sample → String → Rat
  mauveScore : Sample → String → Rat
  clipScore : Sample → String → Rat
  contentVals : Sample → List (String × Rat)
  selfBleuVals : Sample → List (String × Rat)
  halluCount : Sample → Int
  objCount : Sample → Int
  hungarian : Sample → Rat

/-- Embedding of `os.path.join(image_root_dir or ".", sample[image_path_key])`
(the joined path is only ever consumed by the abstract engines). -/
def imagePath (C : Config) (s : Sample) : String :=
  (C.imageRoot.getD ".") ++ "/" ++ s.image_path

/-- First half of the stage 1 body: recompute `candidates` when absent or
when `--overwrite-candidates` is set. -/
def stage1SetCandidates (C : Config) (overwrite_candidates : Bool) (s : Sample) : Sample :=
  if s.candidates.isNone || overwrite_candidates then
    { s with candidates := some (C.captioner (imagePath C s) C.numCandidates C.temperature) }
  else s

/-- Stage 1 body for one sample: recompute `candidates` when absent or when
`--overwrite-candidates` is set, then set `baseline` to the first candidate
under its own presence check (Python `sample[candidate_key][0]` raises
`IndexError` on an empty candidate list). -/
def stage1Sample (C : Config) (overwrite_candidates : Bool) (s : Sample) : Except PyErr Sample :=
  let s1 := stage1SetCandidates C overwrite_candidates s
  if s1.baseline.isNone || overwrite_candidates then
    match s1.candidates with
    | none => .error (.keyError "candidates")
    | some [] => .error .indexError
    | some (c :: _) => .ok { s1 with baseline := some c }
  else .ok s1

/-- Whether `sample["plugin_outputs"].get(plugin_name, None) is None`: true
when the entry is absent or explicitly `null`. -/
def entryIsNone (outs : List (String × Json)) (n : String) : Bool :=
  match alookup outs n with
  | none => true
  | some .null => true
  | some _ => false

/-- Stage 2 body for one sample and one plugin: create the `plugin_outputs`
dict when missing, then recompute the plugin's entry when it is absent/null
or when `--overwrite-candidates` is set. -/
def pluginSample (C : Config) (name : String) (pl : String → Json)
    (overwrite_candidates : Bool) (s : Sample) : Sample :=
  let s1 := if s.plugin_outputs.isNone then { s with plugin_outputs := some [] } else s
  let outs := s1.plugin_outputs.getD []
  if entryIsNone outs name || overwrite_candidates then
    { s1 with plugin_outputs := some (dictSet outs name (pl (imagePath C s1))) }
  else s1

/-- Stage 2: the outer loop over the requested plugins, each sweeping the
whole sample list. -/
def pluginStage (C : Config) (overwrite_candidates : Bool) (samples : List Sample) : List Sample :=
  C.plugins.foldl (fun ss np => ss.map (pluginSample C np.1 np.2 overwrite_candidates)) samples

/-- The values view of a sample's plugin outputs,
`list(sample.get("plugin_outputs", {}).values())`. -/
def pluginValues (s : Sample) : List Json :=
  (s.plugin_outputs.getD []).map Prod.snd

/-- The effective summary-overwrite flag: line 140 of the source,
`overwrite_candidate_summaries = overwrite_candidate_summaries or overwrite_candidates`. -/
def effectiveSummaryOverwrite (overwrite_candidates overwrite_candidate_summaries : Bool) : Bool :=
  overwrite_candidate_summaries || overwrite_candidates

/-- Stage 3 body for one sample: recompute the candidate summary (prompt and
post-processed best completion) when absent or when the effective overwrite
flag is set, then likewise the reference summary. -/
def summarySample (C : Config) (ow : Bool) (s : Sample) : Except PyErr Sample :=
  let step1 : Except PyErr Sample :=
    if s.candidate_summary.isNone || ow then
      match s.candidates with
      | none => .error (.keyError "candidates")
      | some cands =>
        let p := C.promptFor cands C.prompt (pluginValues s)
        .ok { s with candidate_summary_prompt := some p,
                     candidate_summary := some (C.postprocess (C.lmBest p)) }
    else .ok s
  match step1 with
  | .error e => .error e
  | .ok s1 =>
    if s1.reference_summary.isNone || ow then
      let p := C.promptFor s1.references C.prompt (pluginValues s1)
      .ok { s1 with reference_summary_prompt := some p,
                    reference_summary := some (C.postprocess (C.lmBest p)) }
    else .ok s1

/-- Ensure the sample has a `scores` dict (metric collaborators create it on
first use). -/
def ensureScores (s : Sample) : Sample :=
  if s.scores.isNone then { s with scores := some [] } else s

/-- Store a value under a score key only when that key is not already
computed (the skip-if-present discipline of the metric collaborators). -/
def addScoreIfAbsent (k : String) (v : ScoreVal) (s : Sample) : Sample :=
  let s1 := ensureScores s
  let sc := s1.scores.getD []
  if (alookup sc k).isNone then { s1 with scores := some (dictSet sc k v) } else s1

/-- The top-level score keys written by the base-metrics collaborator (the
BLEU/ROUGE/CIDEr scores the aggregator later reads). -/
def baseScoreKeys : List String :=
  ["candidate_summary_bleu_1", "candidate_summary_bleu_2", "candidate_summary_bleu_3",
   "candidate_summary_bleu_4", "candidate_summary_rouge", "candidate_summary_cider",
   "reference_summary_bleu_1", "reference_summary_bleu_2", "reference_summary_bleu_3",
   "reference_summary_bleu_4", "reference_summary_rouge", "reference_summary_cider",
   "baseline_bleu_1", "baseline_bleu_2", "baseline_bleu_3", "baseline_bleu_4",
   "baseline_rouge", "baseline_cider"]

/-- The score keys written by the Mauve collaborator. -/
def mauveScoreKeys : List String :=
  ["candidate_summary_mauve", "reference_summary_mauve", "baseline_mauve"]

/-- The score keys written by the CLIP-recall collaborator. -/
def clipScoreKeys : List String :=
  ["candidate_summary_clip_recall_rank", "candidate_summary_clip_recall_mrr",
   "candidate_summary_clip_recall_at_1", "candidate_summary_clip_recall_at_5",
   "candidate_summary_clip_recall_at_10", "candidate_summary_clip_recall_max_rank",
   "reference_summary_clip_recall_rank", "reference_summary_clip_recall_mrr",
   "reference_summary_clip_recall_at_1", "reference_summary_clip_recall_at_5",
   "reference_summary_clip_recall_at_10", "reference_summary_clip_recall_max_rank",
   "baseline_clip_recall_rank", "baseline_clip_recall_mrr",
   "baseline_clip_recall_at_1", "baseline_clip_recall_at_5",
   "baseline_clip_recall_at_10", "baseline_clip_recall_max_rank"]

/-- Modelled from the spec: `compute_and_add_base_metrics` (package
`cbc.metrics`, not under `src/`) computes BLEU/ROUGE/CIDEr "for each image
(if not already computed)" and lands the results under `scores`; we model it
as storing a collaborator-supplied value under each base key of each sample
unless that key is already present. -/
def computeAndAddBaseMetrics (C : Config) (samples : List Sample) : List Sample :=
  samples.map (fun s =>
    baseScoreKeys.foldl (fun t k => addScoreIfAbsent k (.num (C.baseScore s k)) t) s)

/-- Modelled from the spec: `compute_and_add_mauve_score` (package
`cbc.metrics`, not under `src/`), same skip-if-present discipline over the
Mauve keys. -/
def computeAndAddMauveScore (C : Config) (samples : List Sample) : List Sample :=
  samples.map (fun s =>
    mauveScoreKeys.foldl (fun t k => addScoreIfAbsent k (.num (C.mauveScore s k)) t) s)

/-- Modelled from the spec: `compute_and_add_clip_recall` (package
`cbc.metrics`, not under `src/`), same skip-if-present discipline over the
CLIP-recall keys. -/
def computeAndAddClipRecall (C : Config) (samples : List Sample) : List Sample :=
  samples.map (fun s =>
    clipScoreKeys.foldl (fun t k => addScoreIfAbsent k (.num (C.clipScore s k)) t) s)

/-- Modelled from the spec: `compute_and_add_content_recall` (package
`cbc.metrics`, not under `src/`) stores the nested noun/verb-recall dict
under `scores["content_recall"]` when not already computed. -/
def computeAndAddContentRecall (C : Config) (samples : List Sample) : List Sample :=
  samples.map (fun s => addScoreIfAbsent "content_recall" (.map (C.contentVals s)) s)

/-- Modelled from the spec: `compute_and_add_self_bleu` (package
`cbc.metrics`, not under `src/`) stores the nested self-BLEU dict under
`scores["self_bleu"]` when not already computed. -/
def computeAndAddSelfBleu (C : Config) (samples : List Sample) : List Sample :=
  samples.map (fun s => addScoreIfAbsent "self_bleu" (.map (C.selfBleuVals s)) s)

/-- Modelled from the spec: `compute_and_add_object_hallucinations` (package
`cbc.metrics`, not under `src/`) populates the two top-level hallucination
counters and `scores["hungarian_matching_score"]`, each when not already
computed. -/
def computeAndAddObjectHallucinations (C : Config) (samples : List Sample) : List Sample :=
  samples.map (fun s =>
    let s1 := if s.hallucinated_object_count.isNone then
        { s with hallucinated_object_count := some (C.halluCount s) } else s
    let s2 := if s1.object_count.isNone then
        { s1 with object_count := some (C.objCount s1) } else s1
    addScoreIfAbsent "hungarian_matching_score" (.num (C.hungarian s2)) s2)

/-- Embedding of the stage sequence of `evaluate_dataset` after loading:
candidate generation (with baseline derivation), plugin extraction, candidate
and reference summarization, the six metric collaborators in source order,
and final metric aggregation.  Returns the final sample list and the metrics
report; any raised exception aborts the whole run. -/
def runPipeline (C : Config) (overwrite_candidates overwrite_candidate_summaries : Bool)
    (samples : List Sample) : Except PyErr (List Sample × MetricsReport) := do
  let s1 ← mapE (stage1Sample C overwrite_candidates) samples
  let s2 := pluginStage C overwrite_candidates s1
  let ow := effectiveSummaryOverwrite overwrite_candidates overwrite_candidate_summaries
  let s3 ← mapE (summarySample C ow) s2
  let s4 := computeAndAddBaseMetrics C s3
  let s5 := computeAndAddMauveScore C s4
  let s6 := computeAndAddClipRecall C s5
  let s7 := computeAndAddContentRecall C s6
  let s8 := computeAndAddSelfBleu C s7
  let s9 := computeAndAddObjectHallucinations C s8
  let m ← extractAndAggregateMetrics s9
  pure (s9, m)

/-!
## Decidable presence predicates and concrete data

The predicates express "this field/key is already populated" exactly as the
stage predicates test it; the concrete samples and configuration below are
evaluation inputs for the theorems.
-/

/-- Whether an `Except` computation succeeded. -/
def isOkE {α : Type} (e : Except PyErr α) : Bool :=
  match e with
  | .ok _ => true
  | .error _ => false

/-- Whether the sample's `scores` dict exists and has key `k`. -/
def scoreKeyPresent (s : Sample) (k : String) : Bool :=
  match s.scores with
  | none => false
  | some sc => (alookup sc k).isSome

/-- Whether the sample's `scores` dict has key `k` bound to a scalar. -/
def hasNumScore (s : Sample) (k : String) : Bool :=
  match s.scores with
  | none => false
  | some sc =>
    match alookup sc k with
    | some (.num _) => true
    | _ => false

/-- Whether the sample's `plugin_outputs` dict exists and has a non-null
entry for plugin `n` (the negation of the stage-2 recompute predicate). -/
def pluginEntryPresent (s : Sample) (n : String) : Bool :=
  match s.plugin_outputs with
  | none => false
  | some outs => !(entryIsNone outs n)

/-- Every score key some metric collaborator owns and the aggregator reads at
top level. -/
def requiredScoreKeys : List String :=
  baseScoreKeys ++ mauveScoreKeys ++ clipScoreKeys ++
    ["content_recall", "self_bleu", "hungarian_matching_score"]

/-- A fully populated sample with respect to configuration `C`: every stage
predicate of the pipeline reports "already computed". -/
@[reducible]
def sampleDone (C : Config) (s : Sample) : Prop :=
  s.candidates.isSome = true ∧ s.baseline.isSome = true ∧
  (∀ np ∈ C.plugins, pluginEntryPresent s np.1 = true) ∧
  s.candidate_summary.isSome = true ∧ s.reference_summary.isSome = true ∧
  (∀ k ∈ requiredScoreKeys, scoreKeyPresent s k = true) ∧
  s.hallucinated_object_count.isSome = true ∧ s.object_count.isSome = true

/-- The scalar paths the three mean groups of the aggregator read. -/
def pathsOfMeanGroups : List ScorePath :=
  meanGroups.flatMap (fun g => g.2.map Prod.snd)

/-- Whether every mean-group extraction and both hallucination-counter reads
succeed on this sample. -/
def aggReady (s : Sample) : Bool :=
  (pathsOfMeanGroups.all (fun p => isOkE (getScorePath s p))) &&
    s.hallucinated_object_count.isSome && s.object_count.isSome

/-- The eleven score keys the aggregator's dict literal evaluates before it
reaches `reference_summary_cider`. -/
def keysBeforeReferenceSummaryCider : List String :=
  ["candidate_summary_bleu_1", "candidate_summary_bleu_2", "candidate_summary_bleu_3",
   "candidate_summary_bleu_4", "candidate_summary_rouge", "candidate_summary_cider",
   "reference_summary_bleu_1", "reference_summary_bleu_2", "reference_summary_bleu_3",
   "reference_summary_bleu_4", "reference_summary_rouge"]

/-- A scores dict holding every key the aggregator reads, with
`candidate_summary_bleu_1` bound to `b1` and every other scalar to `0`. -/
def fullScoresWith (b1 : Rat) : List (String × ScoreVal) :=
  (baseScoreKeys.map (fun k =>
    (k, ScoreVal.num (if k = "candidate_summary_bleu_1" then b1 else 0)))) ++
  (mauveScoreKeys.map (fun k => (k, ScoreVal.num 0))) ++
  (clipScoreKeys.map (fun k => (k, ScoreVal.num 0))) ++
  [("content_recall", ScoreVal.map (contentRecallKeys.map (fun kp => (kp.1, (0 : Rat))))),
   ("self_bleu", ScoreVal.map [("candidates", 0), ("references", 0)]),
   ("hungarian_matching_score", ScoreVal.num 0)]

/-- A sample every stage of the pipeline considers already computed, with the
given `candidate_summary_bleu_1` score and hallucination counters. -/
def demoFullSample (b1 : Rat) (hc oc : Int) : Sample :=
  { image_path := "img", references := ["ref"],
    candidates := some ["cap"], baseline := some "cap",
    plugin_outputs := some [("detect", .obj [("objects", .arr [])])],
    candidate_summary := some "cs", candidate_summary_prompt := some "csp",
    reference_summary := some "rs", reference_summary_prompt := some "rsp",
    scores := some (fullScoresWith b1),
    hallucinated_object_count := some hc, object_count := some oc }

/-- Three fully scored samples with `candidate_summary_bleu_1` values
`0.2, 0.4, 0.6` and hallucination counters `(1,4), (0,3), (2,5)`. -/
def demo3 : List Sample :=
  [demoFullSample (1/5) 1 4, demoFullSample (2/5) 0 3, demoFullSample (3/5) 2 5]

/-- A one-sample list whose `object_count` values sum to zero while every
aggregator extraction succeeds. -/
def demoZeroSamples : List Sample :=
  [demoFullSample 0 0 0]

/-- A concrete pipeline configuration with deterministic engines, one plugin
named `detect`, and metric collaborators producing scalar `0` (object count
`1`). -/
def demoConfig : Config :=
  { captioner := fun _ _ _ => ["fresh"],
    numCandidates := 1, temperature := 1,
    plugins := [("detect", fun _ => Json.obj [("objects", .arr [])])],
    promptFor := fun _ p _ => p,
    lmBest := fun p => "best:" ++ p,
    postprocess := fun c => c ++ ".",
    prompt := "summarize",
    imageRoot := none,
    baseScore := fun _ _ => 0, mauveScore := fun _ _ => 0, clipScore := fun _ _ => 0,
    contentVals := fun _ => contentRecallKeys.map (fun kp => (kp.1, 0)),
    selfBleuVals := fun _ => [("candidates", 0), ("references", 0)],
    halluCount := fun _ => 0, objCount := fun _ => 1, hungarian := fun _ => 0 }

/-- A list containing one fully populated sample for the demo configuration. -/
def demoDoneSamples : List Sample :=
  [demoFullSample (1/5) 1 4]

/-- A sample whose `candidates` and `baseline` are both pre-populated in the
input, with `baseline` different from `candidates[0]`. -/
def staleBaselineSample : Sample :=
  { image_path := "img", references := ["ref"],
    candidates := some ["first", "second"], baseline := some "second" }

/-- A sample with a pre-populated (non-null) plugin entry for `detect`. -/
def stalePluginSample : Sample :=
  { image_path := "img", references := ["ref"],
    plugin_outputs := some [("detect", .str "old")] }

/-- A scores dict holding exactly the keys evaluated before
`reference_summary_cider`, each bound to `0`. -/
def preCiderScores : List (String × ScoreVal) :=
  keysBeforeReferenceSummaryCider.map (fun k => (k, ScoreVal.num 0))

/-- A sample lacking `scores["reference_summary_cider"]` (it has only the
keys the aggregator evaluates earlier). -/
def missingCiderSample : Sample :=
  { image_path := "m", references := [], scores := some preCiderScores }

/-- A sample that also has `reference_summary_cider`. -/
def withCiderSample : Sample :=
  { image_path := "w", references := [],
    scores := some (preCiderScores ++ [("reference_summary_cider", ScoreVal.num 0)]) }

/-- The missing-key sample at index 0. -/
def demoMissA : List Sample := [missingCiderSample, withCiderSample]

/-- The missing-key sample at index 1. -/
def demoMissB : List Sample := [withCiderSample, missingCiderSample]

/-- A file system holding an intact previous checkpoint for output path
`out.json`. -/
def oldCheckpointFs : FsState :=
  ⟨[("out.json.tmp", "OLD")]⟩

/-!
## Library lemmas about the embedding primitives
-/

theorem isOkE_exists_ok {α : Type} (e : Except PyErr α) (h : isOkE e = true) :
    ∃ a, e = .ok a := by
  cases e with
  | ok a => exact ⟨a, rfl⟩
  | error e => simp [isOkE] at h

theorem mapE_ok_of_fn {α β : Type} (f : α → Except PyErr β) (g : α → β) (l : List α)
    (h : ∀ a ∈ l, f a = .ok (g a)) : mapE f l = .ok (l.map g) := by
  induction l with
  | nil => rfl
  | cons a as ih =>
    have ha := h a (by simp)
    have hrest := ih (fun x hx => h x (by simp [hx]))
    simp [mapE, ha, hrest, bind, Except.bind, pure, Except.pure]

theorem mapE_id {α : Type} (f : α → Except PyErr α) (l : List α)
    (h : ∀ a ∈ l, f a = .ok a) : mapE f l = .ok l := by
  have := mapE_ok_of_fn f id l (by simpa using h)
  simpa using this

theorem mapE_exists_ok {α β : Type} (f : α → Except PyErr β) (l : List α)
    (h : ∀ a ∈ l, ∃ b, f a = .ok b) : ∃ l', mapE f l = .ok l' := by
  induction l with
  | nil => exact ⟨[], rfl⟩
  | cons a as ih =>
    obtain ⟨b, hb⟩ := h a (by simp)
    obtain ⟨bs, hbs⟩ := ih (fun x hx => h x (by simp [hx]))
    exact ⟨b :: bs, by simp [mapE, hb, hbs, bind, Except.bind, pure, Except.pure]⟩

theorem mapE_mem_ok {α β : Type} (f : α → Except PyErr β) (l : List α) (l' : List β)
    (h : mapE f l = .ok l') : ∀ a ∈ l, ∃ b ∈ l', f a = .ok b := by
  induction l generalizing l' with
  | nil => intro a ha; simp at ha
  | cons x xs ih =>
    intro a ha
    cases hx : f x with
    | error e => simp [mapE, hx, bind, Except.bind] at h
    | ok b =>
      cases hxs : mapE f xs with
      | error e => simp [mapE, hx, hxs, bind, Except.bind] at h
      | ok bs =>
        simp [mapE, hx, hxs, bind, Except.bind, pure, Except.pure] at h
        rcases List.mem_cons.1 ha with rfl | ha
        · exact ⟨b, by simp [← h], hx⟩
        · obtain ⟨c, hc, hfc⟩ := ih bs hxs a ha
          exact ⟨c, by simp [← h, hc], hfc⟩

theorem mapE_map_eq {α β γ : Type} (f : α → Except PyErr β) (g : β → γ) (g' : α → γ)
    (l : List α) (l' : List β) (h : mapE f l = .ok l')
    (hp : ∀ a b, f a = .ok b → g b = g' a) : l'.map g = l.map g' := by
  induction l generalizing l' with
  | nil =>
    simp [mapE, pure, Except.pure] at h
    simp [← h]
  | cons x xs ih =>
    cases hx : f x with
    | error e => simp [mapE, hx, bind, Except.bind] at h
    | ok b =>
      cases hxs : mapE f xs with
      | error e => simp [mapE, hx, hxs, bind, Except.bind] at h
      | ok bs =>
        simp [mapE, hx, hxs, bind, Except.bind, pure, Except.pure] at h
        simp [← h, List.map, hp x b hx, ih bs hxs]

theorem mapE_append_error {α β : Type} (f : α → Except PyErr β) (l1 : List α) (x : α)
    (l2 : List α) (e : PyErr) (h1 : ∀ a ∈ l1, ∃ b, f a = .ok b) (hx : f x = .error e) :
    mapE f (l1 ++ x :: l2) = .error e := by
  induction l1 with
  | nil => simp [mapE, hx, bind, Except.bind]
  | cons a as ih =>
    obtain ⟨b, hb⟩ := h1 a (by simp)
    have := ih (fun y hy => h1 y (by simp [hy]))
    simp [mapE, hb, this, bind, Except.bind]

theorem alookup_dictSet {α : Type} (l : List (String × α)) (k k' : String) (v : α) :
    alookup (dictSet l k v) k' = if k = k' then some v else alookup l k' := by
  induction l with
  | nil => simp [dictSet, alookup]
  | cons a rest ih =>
    obtain ⟨ak, av⟩ := a
    by_cases h1 : ak = k
    · subst h1
      simp only [dictSet, if_pos rfl, alookup]
      by_cases h2 : ak = k' <;> simp [alookup, h2]
    · simp only [dictSet, if_neg h1, alookup, ih]
      by_cases h2 : ak = k' <;> by_cases h3 : k = k'
      · exact absurd (h2.trans h3.symm) h1
      · simp [h2, h3]
      · simp [h2, h3]
      · simp [h2, h3]

theorem alookup_append_some {α : Type} (l1 l2 : List (String × α)) (k : String) (v : α)
    (h : alookup l1 k = some v) : alookup (l1 ++ l2) k = some v := by
  induction l1 with
  | nil => simp [alookup] at h
  | cons a rest ih =>
    obtain ⟨ak, av⟩ := a
    simp only [List.cons_append, alookup] at h ⊢
    by_cases h1 : ak = k
    · simp only [if_pos h1] at h ⊢
      exact h
    · simp only [if_neg h1] at h ⊢
      exact ih h

theorem alookup_append_none {α : Type} (l1 l2 : List (String × α)) (k : String)
    (h : alookup l1 k = none) : alookup (l1 ++ l2) k = alookup l2 k := by
  induction l1 with
  | nil => rfl
  | cons a rest ih =>
    obtain ⟨ak, av⟩ := a
    simp only [List.cons_append, alookup] at h ⊢
    by_cases h1 : ak = k
    · simp [if_pos h1] at h
    · simp only [if_neg h1] at h ⊢
      exact ih h

theorem alookup_of_mem_nodup {α : Type} (l : List (String × α)) (k : String) (v : α)
    (hn : (l.map Prod.fst).Nodup) (hm : (k, v) ∈ l) : alookup l k = some v := by
  induction l with
  | nil => simp at hm
  | cons a rest ih =>
    obtain ⟨ak, av⟩ := a
    rw [List.map_cons] at hn
    have hn' := List.nodup_cons.1 hn
    rcases List.mem_cons.1 hm with heq | hm'
    · cases heq
      simp [alookup]
    · have hk : ak ≠ k := by
        intro hak
        exact hn'.1 (by rw [hak]; exact List.mem_map.2 ⟨(k, v), hm', rfl⟩)
      simp only [alookup, if_neg hk]
      exact ih hn'.2 hm' 

theorem alookup_eq_none_of_not_mem {α : Type} (l : List (String × α)) (k : String)
    (h : k ∉ l.map Prod.fst) : alookup l k = none := by
  induction l with
  | nil => rfl
  | cons a rest ih =>
    obtain ⟨ak, av⟩ := a
    simp only [List.map, List.mem_cons, not_or] at h
    simp only [alookup]
    rw [if_neg (fun hh => h.1 hh.symm)]
    exact ih h.2

/-!
## Checkpoint writing (C4)
-/

theorem runOps_append_foldl (p : String) (chunks : List String) :
    ∀ (st : FsState) (acc : String), fileAt st p = some acc →
      fileAt (runOps st (chunks.map (FsOp.append p))) p = some (chunks.foldl (· ++ ·) acc) := by
  induction chunks with
  | nil => intro st acc h; simpa [runOps] using h
  | cons c cs ih =>
    intro st acc h
    have h1 : fileAt (applyOp st (.append p c)) p = some (acc ++ c) := by
      unfold fileAt applyOp
      rw [alookup_dictSet, if_pos rfl]
      unfold fileAt at h
      rw [h]
      rfl
    have h2 := ih (applyOp st (.append p c)) (acc ++ c) h1
    simpa [runOps] using h2

/-- C4 (amended): `_save_json_tmp_file` serializes the full sample sequence
to `output_json_path + ".tmp"`, overwriting any prior checkpoint — but it
does so by truncating that file in place and writing into it directly, with
no separate temporary file and no rename; a completed call always leaves the
full serialization at the `.tmp` path. -/
theorem save_json_tmp_file_behavior (st : FsState) (path : String) (chunks : List String) :
    fileAt (runOps st (saveJsonTmpOps path chunks)) (path ++ ".tmp") = some (String.join chunks) := by
  have h0 : fileAt (applyOp st (.truncate (path ++ ".tmp"))) (path ++ ".tmp") = some "" := by
    simp [applyOp, fileAt, alookup_dictSet]
  have h1 := runOps_append_foldl (path ++ ".tmp") chunks (applyOp st (.truncate (path ++ ".tmp"))) "" h0
  have hjoin : String.join chunks = chunks.foldl (· ++ ·) "" := rfl
  rw [hjoin]
  simpa [saveJsonTmpOps, runOps] using h1

/-- C4 counterexample: the claim says a crash mid-checkpoint leaves either
the old or the new checkpoint fully written.  It does not: starting from a
file system holding the intact previous checkpoint `"OLD"` of output path
`out.json`, a crash right after the truncating `open(...la, "w")` (the
one-operation prefix of the write sequence for new content `"NEW"`) leaves
the checkpoint file empty — neither `"OLD"` nor `"NEW"`. -/
theorem save_json_tmp_not_atomic_counterexample :
    fileAt oldCheckpointFs "out.json.tmp" = some "OLD" ∧
    fileAt (runOps oldCheckpointFs ((saveJsonTmpOps "out.json" ["NEW"]).take 1)) "out.json.tmp"
      = some "" ∧
    ("" : String) ≠ "OLD" ∧ ("" : String) ≠ "NEW" ∧
    fileAt (runOps oldCheckpointFs (saveJsonTmpOps "out.json" ["NEW"])) "out.json.tmp"
      = some "NEW" := by
  refine ⟨rfl, rfl, by decide, by decide, rfl⟩

/-!
## Dataset loading (C5)
-/

/-- C5 counterexample: the claim says loading fails with a dataset-format
error whenever the root JSON value is neither a list nor an object with a
`samples` key — in particular for a bare string or number.  In the code a
non-dict root is passed through without any check, so loading a bare string
or number succeeds. -/
theorem load_root_unvalidated_counterexample :
    loadSamples (Json.str "not a list") = .ok (Json.str "not a list") ∧
    loadSamples (Json.num 3) = .ok (Json.num 3) ∧
    ¬ (∃ e, loadSamples (Json.str "not a list") = .error e) := by
  refine ⟨rfl, rfl, ?_⟩
  rintro ⟨e, he⟩
  simp [loadSamples] at he

/-- C5 (amended): the only root value the load step rejects is a JSON object
without a `samples` key, and the error is a `KeyError` on `"samples"` (there
is no dedicated dataset-format error); an object with the key yields the
key's value, a list yields itself, and a bare string or number is passed
through unvalidated, deferring any failure to the first stage. -/
theorem load_samples_amended :
    (∀ fields, alookup fields "samples" = none →
      loadSamples (Json.obj fields) = .error (.keyError "samples")) ∧
    (∀ fields v, alookup fields "samples" = some v → loadSamples (Json.obj fields) = .ok v) ∧
    (∀ xs, loadSamples (Json.arr xs) = .ok (.arr xs)) ∧
    (∀ s, loadSamples (Json.str s) = .ok (.str s)) ∧
    (∀ q, loadSamples (Json.num q) = .ok (.num q)) := by
  refine ⟨?_, ?_, fun _ => rfl, fun _ => rfl, fun _ => rfl⟩
  · intro fields h
    simp [loadSamples, h]
  · intro fields v h
    simp [loadSamples, h]

/-- Witness for C5 (amended) at concrete inputs: an object without the
`samples` key fails with `KeyError("samples")`; one with the key yields the
key's value. -/
theorem load_samples_amended_witness :
    loadSamples (Json.obj [("data", Json.arr [])]) = .error (.keyError "samples") ∧
    loadSamples (Json.obj [("samples", Json.arr [])]) = .ok (.arr []) := by
  exact ⟨load_samples_amended.1 [("data", Json.arr [])] rfl,
    load_samples_amended.2.1 [("samples", Json.arr [])] (Json.arr []) rfl⟩

/-!
## Baseline derivation (C2)
-/

/-- C2 (amended): after the candidate-generation stage, `baseline` equals
`candidates[0]` for every sample whose `baseline` was absent before the
stage or when `--overwrite-candidates` is set; but a pre-populated
`baseline` is left unchanged — even when it differs from `candidates[0]`. -/
theorem stage1SetCandidates_baseline (C : Config) (ocand : Bool) (s : Sample) :
    (stage1SetCandidates C ocand s).baseline = s.baseline := by
  unfold stage1SetCandidates
  split <;> rfl

theorem stage1_baseline_behavior (C : Config) (ocand : Bool) (s s' : Sample)
    (h : stage1Sample C ocand s = .ok s') :
    ((s.baseline.isNone = true ∨ ocand = true) →
      ∃ c rest, s'.candidates = some (c :: rest) ∧ s'.baseline = some c) ∧
    (ocand = false → ∀ b, s.baseline = some b → s'.baseline = some b) := by
  simp only [stage1Sample] at h
  constructor
  · intro hset
    have hcond : ((stage1SetCandidates C ocand s).baseline.isNone || ocand) = true := by
      rcases hset with hb | ho
      · rw [stage1SetCandidates_baseline, hb]
        rfl
      · rw [ho]
        simp
    rw [if_pos hcond] at h
    rcases hc2 : (stage1SetCandidates C ocand s).candidates with _ | cs
    · rw [hc2] at h
      simp at h
    · rw [hc2] at h
      rcases cs with _ | ⟨c, rest⟩
      · simp at h
      · simp only [Except.ok.injEq] at h
        subst h
        exact ⟨c, rest, rfl, rfl⟩
  · intro ho b hb
    subst ho
    have hbase : (stage1SetCandidates C false s).baseline = some b := by
      rw [stage1SetCandidates_baseline]
      exact hb
    rw [hbase] at h
    simp only [Option.isNone_some, Bool.or_self, Bool.false_eq_true, if_false,
      Except.ok.injEq] at h
    rw [← h]
    exact hbase

/-- C2 counterexample: on a sample whose `candidates` and `baseline` are both
already populated with `baseline ≠ candidates[0]`, the candidate-generation
stage (no overwrite) leaves the sample untouched, so after the stage
`baseline` still differs from `candidates[0]` — refuting the claim that
`baseline == candidates[0]` holds in particular for such samples. -/
theorem stale_baseline_counterexample :
    stage1Sample demoConfig false staleBaselineSample = .ok staleBaselineSample ∧
    staleBaselineSample.candidates = some ["first", "second"] ∧
    staleBaselineSample.baseline = some "second" ∧
    ("second" : String) ≠ "first" := by
  refine ⟨rfl, rfl, rfl, by decide⟩

/-- Witness for C2 (amended): on a sample with a stale pre-populated
baseline, running stage 1 with the overwrite flag set recomputes both fields
and restores `baseline = candidates[0]`. -/
theorem stage1_baseline_behavior_witness :
    ∃ s' c rest, stage1Sample demoConfig true staleBaselineSample = .ok s' ∧
      s'.candidates = some (c :: rest) ∧ s'.baseline = some c := by
  obtain ⟨s', hs'⟩ := isOkE_exists_ok (stage1Sample demoConfig true staleBaselineSample) (by rfl)
  obtain ⟨c, rest, h1, h2⟩ :=
    (stage1_baseline_behavior demoConfig true staleBaselineSample s' hs').1 (Or.inr rfl)
  exact ⟨s', c, rest, hs', h1, h2⟩

/-!
## Plugin extraction (C9)
-/

/-- C9 (amended): a pre-populated (non-null) plugin entry is left unchanged
by the plugin-extraction stage when `--overwrite-candidates` is false (the
summaries-overwrite flag is never consulted by this stage); but when
`--overwrite-candidates` is set, the entry is recomputed. -/
theorem plugin_entry_behavior (C : Config) (name : String) (pl : String → Json)
    (s : Sample) (outs : List (String × Json)) (v : Json)
    (ho : s.plugin_outputs = some outs) (hv : alookup outs name = some v)
    (hnn : v ≠ Json.null) :
    pluginSample C name pl false s = s ∧
    (pluginSample C name pl true s).plugin_outputs
      = some (dictSet outs name (pl (imagePath C s))) := by
  have h1 : s.plugin_outputs.isNone = false := by simp [ho]
  have h2 : entryIsNone outs name = false := by
    unfold entryIsNone
    rw [hv]
    cases v with
    | null => exact absurd rfl hnn
    | bool b => rfl
    | num q => rfl
    | str t => rfl
    | arr xs => rfl
    | obj fs => rfl
  constructor
  · simp [pluginSample, h1, ho, h2]
  · simp [pluginSample, h1, ho, h2]

/-- C9 counterexample: with `--overwrite-candidates` set, the plugin stage
recomputes a plugin entry that was already present — the stage's recompute
predicate is `entry is None or overwrite_candidates`, not presence alone, so
the entry is not preserved "regardless of how the overwrite flags are set". -/
theorem plugin_overwrite_counterexample :
    (pluginSample demoConfig "detect" (fun _ => Json.str "new") true stalePluginSample).plugin_outputs
      = some [("detect", Json.str "new")] ∧
    stalePluginSample.plugin_outputs = some [("detect", Json.str "old")] ∧
    Json.str "old" ≠ Json.str "new" := by
  refine ⟨rfl, rfl, ?_⟩
  intro h
  injection h with h
  exact absurd h (by decide)

/-- Witness for C9 (amended): with the overwrite flag false the stage leaves
the concrete sample with a populated `detect` entry untouched. -/
theorem plugin_entry_behavior_witness :
    pluginSample demoConfig "detect" (fun _ => Json.str "new") false stalePluginSample
      = stalePluginSample := by
  exact (plugin_entry_behavior demoConfig "detect" (fun _ => Json.str "new") stalePluginSample
    [("detect", Json.str "old")] (Json.str "old") rfl rfl (fun h => Json.noConfusion h)).1

/-!
## Overwrite propagation (C6)
-/

/-- C6: setting `--overwrite-candidates` forces the summarization stage to
recompute `candidate_summary`, `reference_summary` and both `*_prompt`
fields for every sample (with candidates available), even though the
summaries-overwrite flag is false — because the stage runs under the
effective flag `overwrite_candidate_summaries or overwrite_candidates`. -/
theorem summary_overwrite_propagation (C : Config) (s : Sample) (cands : List String)
    (hc : s.candidates = some cands) :
    ∃ s', summarySample C (effectiveSummaryOverwrite true false) s = .ok s' ∧
      s'.candidate_summary_prompt = some (C.promptFor cands C.prompt (pluginValues s)) ∧
      s'.candidate_summary
        = some (C.postprocess (C.lmBest (C.promptFor cands C.prompt (pluginValues s)))) ∧
      s'.reference_summary_prompt = some (C.promptFor s.references C.prompt (pluginValues s)) ∧
      s'.reference_summary
        = some (C.postprocess (C.lmBest (C.promptFor s.references C.prompt (pluginValues s)))) := by
  refine ⟨{ s with
      candidate_summary_prompt := some (C.promptFor cands C.prompt (pluginValues s)),
      candidate_summary
        := some (C.postprocess (C.lmBest (C.promptFor cands C.prompt (pluginValues s)))),
      reference_summary_prompt := some (C.promptFor s.references C.prompt (pluginValues s)),
      reference_summary
        := some (C.postprocess (C.lmBest (C.promptFor s.references C.prompt (pluginValues s)))) },
    ?_, rfl, rfl, rfl, rfl⟩
  simp [summarySample, effectiveSummaryOverwrite, hc, pluginValues]

/-- Witness for C6: on a fully populated sample (summaries present), running
summarization with candidates-overwrite set and summaries-overwrite false
recomputes both summaries through the demo engines. -/
theorem summary_overwrite_propagation_witness :
    ∃ s', summarySample demoConfig (effectiveSummaryOverwrite true false)
        (demoFullSample (1/5) 1 4) = .ok s' ∧
      s'.candidate_summary = some "best:summarize." ∧
      s'.reference_summary = some "best:summarize." := by
  obtain ⟨s', h1, h2, h3, h4, h5⟩ :=
    summary_overwrite_propagation demoConfig (demoFullSample (1/5) 1 4) ["cap"] rfl
  refine ⟨s', h1, ?_, ?_⟩
  · rw [h3]
    rfl
  · rw [h5]
    rfl

/-!
## Aggregation failure modes (C3, C10)
-/

theorem getScorePath_ok_of_hasNum (s : Sample) (k : String) (h : hasNumScore s k = true) :
    ∃ q, getScorePath s (.top k) = .ok q := by
  cases hsc : s.scores with
  | none => simp [hasNumScore, hsc] at h
  | some sc =>
    cases hv : alookup sc k with
    | none => simp [hasNumScore, hsc, hv] at h
    | some v =>
      cases v with
      | num q => exact ⟨q, by simp [getScorePath, hsc, hv]⟩
      | map m => simp [hasNumScore, hsc, hv] at h

theorem getScorePath_keyError (s : Sample) (k : String)
    (h3 : scoreKeyPresent s k = false) (h4 : s.scores.isSome = true) :
    getScorePath s (.top k) = .error (.keyError k) := by
  obtain ⟨sc, hsc⟩ := Option.isSome_iff_exists.1 h4
  cases hv : alookup sc k with
  | none => simp [getScorePath, hsc, hv]
  | some v => simp [scoreKeyPresent, hsc, hv] at h3

theorem mapE_cons_first_error {α β : Type} (f : α → Except PyErr β) (a : α) (as : List α)
    (e : PyErr) (h : f a = .error e) : mapE f (a :: as) = .error e := by
  unfold mapE
  rw [h]
  rfl

theorem extract_error_of_groups_error (samples : List Sample) (e : PyErr)
    (h : mapE (fun gks => do
        let ms ← mapE (fun kp => do
          let vs ← mapE (fun s => getScorePath s kp.2) samples
          pure (kp.1, npMean vs)) gks.2
        pure (gks.1, ms)) meanGroups = .error e) :
    extractAndAggregateMetrics samples = .error e := by
  unfold extractAndAggregateMetrics
  rw [h]
  rfl

/-- C3 (amended): when some sample's `scores` dict lacks
`reference_summary_cider` (while the scalars the aggregator's dict literal
evaluates earlier are present in every sample, and the key itself is present
in the samples preceding the deficient one), aggregation aborts with a
`KeyError` naming exactly the missing key — but, being a plain `KeyError` on
the key string, the error does not identify which sample index lacks it. -/
theorem aggregation_missing_key (pre rest : List Sample) (s₀ : Sample)
    (h1 : ∀ s ∈ pre ++ s₀ :: rest, ∀ k ∈ keysBeforeReferenceSummaryCider, hasNumScore s k = true)
    (h2 : ∀ s ∈ pre, hasNumScore s "reference_summary_cider" = true)
    (h3 : scoreKeyPresent s₀ "reference_summary_cider" = false)
    (h4 : s₀.scores.isSome = true) :
    extractAndAggregateMetrics (pre ++ s₀ :: rest)
      = .error (.keyError "reference_summary_cider") := by
  have hinner : mapE (fun s => getScorePath s (ScorePath.top "reference_summary_cider"))
      (pre ++ s₀ :: rest) = .error (.keyError "reference_summary_cider") := by
    apply mapE_append_error
    · intro s hs
      exact getScorePath_ok_of_hasNum s _ (h2 s hs)
    · exact getScorePath_keyError s₀ _ h3 h4
  have hstd : mapE (fun kp => do
      let vs ← mapE (fun s => getScorePath s kp.2) (pre ++ s₀ :: rest)
      pure (kp.1, npMean vs)) standardKeys = .error (.keyError "reference_summary_cider") := by
    rw [show standardKeys
      = keysBeforeReferenceSummaryCider.map (fun k => (k, ScorePath.top k)) ++
        ("reference_summary_cider", ScorePath.top "reference_summary_cider") ::
        [("baseline_bleu_1", ScorePath.top "baseline_bleu_1"),
         ("baseline_bleu_2", ScorePath.top "baseline_bleu_2"),
         ("baseline_bleu_3", ScorePath.top "baseline_bleu_3"),
         ("baseline_bleu_4", ScorePath.top "baseline_bleu_4"),
         ("baseline_rouge", ScorePath.top "baseline_rouge"),
         ("baseline_cider", ScorePath.top "baseline_cider"),
         ("candidate_summary_mauve", ScorePath.top "candidate_summary_mauve"),
         ("reference_summary_mauve", ScorePath.top "reference_summary_mauve"),
         ("baseline_mauve", ScorePath.top "baseline_mauve"),
         ("candidate_self_bleu", ScorePath.nested "self_bleu" "candidates"),
         ("reference_self_bleu", ScorePath.nested "self_bleu" "references")] from rfl]
    apply mapE_append_error
    · intro kp hkp
      obtain ⟨k, hk, rfl⟩ := List.mem_map.1 hkp
      obtain ⟨vs, hvs⟩ := mapE_exists_ok (fun s => getScorePath s (ScorePath.top k))
        (pre ++ s₀ :: rest) (fun s hs => getScorePath_ok_of_hasNum s k (h1 s hs k hk))
      refine ⟨(k, npMean vs), ?_⟩
      show (do
        let vs ← mapE (fun s => getScorePath s (ScorePath.top k)) (pre ++ s₀ :: rest)
        pure (k, npMean vs)) = Except.ok (k, npMean vs)
      rw [hvs]
      rfl
    · show (do
        let vs ← mapE (fun s => getScorePath s (ScorePath.top "reference_summary_cider"))
          (pre ++ s₀ :: rest)
        pure (("reference_summary_cider" : String), npMean vs))
        = Except.error (PyErr.keyError "reference_summary_cider")
      rw [hinner]
      rfl
  apply extract_error_of_groups_error
  rw [show meanGroups = ("standard", standardKeys) ::
    [("clip_recall", clipRecallKeys), ("content_recall", contentRecallKeys)] from rfl]
  apply mapE_cons_first_error
  show (do
    let ms ← mapE (fun kp => do
      let vs ← mapE (fun s => getScorePath s kp.2) (pre ++ s₀ :: rest)
      pure (kp.1, npMean vs)) standardKeys
    pure (("standard" : String), ms)) = Except.error (PyErr.keyError "reference_summary_cider")
  rw [hstd]
  rfl

/-- C3 counterexample: aggregation over a sequence whose sample 0 lacks
`reference_summary_cider` and over a sequence whose sample 1 lacks it raise
the very same error value, a `KeyError` carrying only the key string — so
the raised error does not surface which sample index lacks the key, and no
dedicated `AggregationError` exists. -/
theorem aggregation_error_counterexample :
    extractAndAggregateMetrics demoMissA = .error (.keyError "reference_summary_cider") ∧
    extractAndAggregateMetrics demoMissB = .error (.keyError "reference_summary_cider") ∧
    demoMissA = [missingCiderSample, withCiderSample] ∧
    demoMissB = [withCiderSample, missingCiderSample] ∧
    hasNumScore missingCiderSample "reference_summary_cider" = false ∧
    hasNumScore withCiderSample "reference_summary_cider" = true := by
  refine ⟨rfl, rfl, rfl, rfl, rfl, rfl⟩

/-- Witness for C3 (amended) at a concrete input: one intact sample followed
by one lacking the key. -/
theorem aggregation_missing_key_witness :
    extractAndAggregateMetrics ([withCiderSample] ++ missingCiderSample :: [])
      = .error (.keyError "reference_summary_cider") := by
  exact aggregation_missing_key [withCiderSample] [] missingCiderSample
    (by decide) (by decide) (by decide) (by decide)

theorem aggReady_parts (s : Sample) (h : aggReady s = true) :
    (∀ p ∈ pathsOfMeanGroups, ∃ q, getScorePath s p = .ok q) ∧
    s.hallucinated_object_count.isSome = true ∧ s.object_count.isSome = true := by
  unfold aggReady at h
  rw [Bool.and_eq_true, Bool.and_eq_true] at h
  refine ⟨?_, h.1.2, h.2⟩
  intro p hp
  exact isOkE_exists_ok _ (List.all_eq_true.1 h.1.1 p hp)

/-- C10: the aggregator is partial at its boundary.  On the empty sample
sequence it raises `ZeroDivisionError` (both hallucination ratios divide by
a zero denominator there; evaluation reaches the objects ratio first).  And
on any sample sequence whose `object_count` values sum to zero (with every
extraction the dict literal evaluates earlier succeeding), computing
`hallucinated_objects_percentage` divides by zero, so aggregation raises a
division error instead of returning a metrics report. -/
theorem aggregation_division_by_zero :
    extractAndAggregateMetrics [] = .error .zeroDivisionError ∧
    ∀ samples : List Sample, (∀ s ∈ samples, aggReady s = true) →
      (samples.map (fun s => s.object_count.getD 0)).sum = 0 →
      extractAndAggregateMetrics samples = .error .zeroDivisionError := by
  constructor
  · rfl
  · intro samples hready hsum
    obtain ⟨groups, hgroups⟩ : ∃ gr, mapE (fun gks => do
        let ms ← mapE (fun kp => do
          let vs ← mapE (fun s => getScorePath s kp.2) samples
          pure (kp.1, npMean vs)) gks.2
        pure (gks.1, ms)) meanGroups = .ok gr := by
      apply mapE_exists_ok
      intro gks hg
      obtain ⟨ms, hms⟩ : ∃ ms, mapE (fun kp => do
          let vs ← mapE (fun s => getScorePath s kp.2) samples
          pure (kp.1, npMean vs)) gks.2 = .ok ms := by
        apply mapE_exists_ok
        intro kp hkp
        obtain ⟨vs, hvs⟩ := mapE_exists_ok (fun s => getScorePath s kp.2) samples
          (fun s hs => (aggReady_parts s (hready s hs)).1 kp.2
            (List.mem_flatMap.2 ⟨gks, hg, List.mem_map.2 ⟨kp, hkp, rfl⟩⟩))
        refine ⟨(kp.1, npMean vs), ?_⟩
        show (do
          let vs ← mapE (fun s => getScorePath s kp.2) samples
          pure (kp.1, npMean vs)) = Except.ok (kp.1, npMean vs)
        rw [hvs]
        rfl
      refine ⟨(gks.1, ms), ?_⟩
      show (do
        let ms ← mapE (fun kp => do
          let vs ← mapE (fun s => getScorePath s kp.2) samples
          pure (kp.1, npMean vs)) gks.2
        pure (gks.1, ms)) = Except.ok (gks.1, ms)
      rw [hms]
      rfl
    have hhcs : mapE (fun s => pyGetCount s.hallucinated_object_count "hallucinated_object_count")
        samples = .ok (samples.map (fun s => s.hallucinated_object_count.getD 0)) := by
      apply mapE_ok_of_fn
      intro s hs
      obtain ⟨n, hn⟩ := Option.isSome_iff_exists.1 (aggReady_parts s (hready s hs)).2.1
      simp [pyGetCount, hn]
    have hocs : mapE (fun s => pyGetCount s.object_count "object_count")
        samples = .ok (samples.map (fun s => s.object_count.getD 0)) := by
      apply mapE_ok_of_fn
      intro s hs
      obtain ⟨n, hn⟩ := Option.isSome_iff_exists.1 (aggReady_parts s (hready s hs)).2.2
      simp [pyGetCount, hn]
    unfold extractAndAggregateMetrics
    rw [hgroups]
    show (do
      let hcs ← mapE (fun s => pyGetCount s.hallucinated_object_count "hallucinated_object_count")
        samples
      let ocs ← mapE (fun s => pyGetCount s.object_count "object_count") samples
      let objPct ← pyDiv ((hcs.sum : Int) : Rat) ((ocs.sum : Int) : Rat)
      let hcs2 ← mapE (fun s => pyGetCount s.hallucinated_object_count "hallucinated_object_count")
        samples
      let capPct ← pyDiv (((hcs2.filter (fun n => 0 < n)).length : Nat) : Rat)
        ((samples.length : Nat) : Rat)
      let hvs ← mapE (fun s => getScorePath s (.top "hungarian_matching_score")) samples
      pure (groups ++
        [("hallucinations",
          [("hallucinated_objects_percentage", objPct),
           ("hallucinated_captions_percentage", capPct),
           ("average_hungarian_matching_score", npMean hvs)])]))
      = Except.error PyErr.zeroDivisionError
    rw [hhcs, hocs]
    show (do
      let objPct ← pyDiv
        (((samples.map (fun s => s.hallucinated_object_count.getD 0)).sum : Int) : Rat)
        (((samples.map (fun s => s.object_count.getD 0)).sum : Int) : Rat)
      let capPct ← pyDiv
        ((((samples.map (fun s => s.hallucinated_object_count.getD 0)).filter
          (fun n => 0 < n)).length : Nat) : Rat)
        ((samples.length : Nat) : Rat)
      let hvs ← mapE (fun s => getScorePath s (.top "hungarian_matching_score")) samples
      pure (groups ++
        [("hallucinations",
          [("hallucinated_objects_percentage", objPct),
           ("hallucinated_captions_percentage", capPct),
           ("average_hungarian_matching_score", npMean hvs)])]))
      = Except.error PyErr.zeroDivisionError
    rw [show pyDiv
        (((samples.map (fun s => s.hallucinated_object_count.getD 0)).sum : Int) : Rat)
        (((samples.map (fun s => s.object_count.getD 0)).sum : Int) : Rat)
      = .error .zeroDivisionError from by rw [hsum]; simp [pyDiv]]
    rfl

/-- Witness for C10's second case: a nonempty sample list with every score
key present whose single `object_count` is zero. -/
theorem aggregation_division_by_zero_witness :
    extractAndAggregateMetrics demoZeroSamples = .error .zeroDivisionError := by
  exact aggregation_division_by_zero.2 demoZeroSamples (by decide) (by decide)

/-!
## Successful aggregation (C7, C8)
-/

theorem bind_ok_reduce {α β : Type} (a : α) (f : α → Except PyErr β) :
    (Bind.bind (Except.ok a) f : Except PyErr β) = f a := rfl

theorem bind_error_reduce {α β : Type} (e : PyErr) (f : α → Except PyErr β) :
    (Bind.bind (Except.error e) f : Except PyErr β) = .error e := rfl

theorem pyDiv_ok (a b v : Rat) (h : pyDiv a b = .ok v) : b ≠ 0 ∧ v = a / b := by
  unfold pyDiv at h
  by_cases hb : b = 0
  · rw [if_pos hb] at h
    exact Except.noConfusion h
  · rw [if_neg hb] at h
    exact ⟨hb, (Except.ok.inj h).symm⟩

theorem extract_ok_parts (samples : List Sample) (r : MetricsReport)
    (h : extractAndAggregateMetrics samples = .ok r) :
    ∃ groups hcs ocs objPct capPct hvs,
      mapE (fun gks => do
        let ms ← mapE (fun kp => do
          let vs ← mapE (fun s => getScorePath s kp.2) samples
          pure (kp.1, npMean vs)) gks.2
        pure (gks.1, ms)) meanGroups = .ok groups ∧
      mapE (fun s => pyGetCount s.hallucinated_object_count "hallucinated_object_count") samples
        = .ok hcs ∧
      mapE (fun s => pyGetCount s.object_count "object_count") samples = .ok ocs ∧
      pyDiv ((hcs.sum : Int) : Rat) ((ocs.sum : Int) : Rat) = .ok objPct ∧
      pyDiv (((hcs.filter (fun n => 0 < n)).length : Nat) : Rat) ((samples.length : Nat) : Rat)
        = .ok capPct ∧
      mapE (fun s => getScorePath s (.top "hungarian_matching_score")) samples = .ok hvs ∧
      r = groups ++
        [("hallucinations",
          [("hallucinated_objects_percentage", objPct),
           ("hallucinated_captions_percentage", capPct),
           ("average_hungarian_matching_score", npMean hvs)])] := by
  unfold extractAndAggregateMetrics at h
  cases hgr : mapE (fun gks => do
      let ms ← mapE (fun kp => do
        let vs ← mapE (fun s => getScorePath s kp.2) samples
        pure (kp.1, npMean vs)) gks.2
      pure (gks.1, ms)) meanGroups with
  | error e =>
    simp only [hgr, bind_error_reduce] at h
    exact Except.noConfusion h
  | ok groups =>
  simp only [hgr, bind_ok_reduce] at h
  cases hh : mapE (fun s => pyGetCount s.hallucinated_object_count "hallucinated_object_count")
      samples with
  | error e =>
    simp only [hh, bind_error_reduce] at h
    exact Except.noConfusion h
  | ok hcs =>
  simp only [hh, bind_ok_reduce] at h
  cases ho : mapE (fun s => pyGetCount s.object_count "object_count") samples with
  | error e =>
    simp only [ho, bind_error_reduce] at h
    exact Except.noConfusion h
  | ok ocs =>
  simp only [ho, bind_ok_reduce] at h
  cases hd : pyDiv ((hcs.sum : Int) : Rat) ((ocs.sum : Int) : Rat) with
  | error e =>
    simp only [hd, bind_error_reduce] at h
    exact Except.noConfusion h
  | ok objPct =>
  simp only [hd, bind_ok_reduce] at h
  cases hc : pyDiv (((hcs.filter (fun n => 0 < n)).length : Nat) : Rat)
      ((samples.length : Nat) : Rat) with
  | error e =>
    simp only [hc, bind_error_reduce] at h
    exact Except.noConfusion h
  | ok capPct =>
  simp only [hc, bind_ok_reduce] at h
  cases hv : mapE (fun s => getScorePath s (.top "hungarian_matching_score")) samples with
  | error e =>
    simp only [hv, bind_error_reduce] at h
    exact Except.noConfusion h
  | ok hvs =>
  simp only [hv, bind_ok_reduce] at h
  exact ⟨groups, hcs, ocs, objPct, capPct, hvs, rfl, rfl, rfl, hd, hc, rfl,
    (Except.ok.inj h).symm⟩

theorem groups_fst_names (samples : List Sample) (groups : List (String × List (String × Rat)))
    (hgr : mapE (fun gks => do
        let ms ← mapE (fun kp => do
          let vs ← mapE (fun s => getScorePath s kp.2) samples
          pure (kp.1, npMean vs)) gks.2
        pure (gks.1, ms)) meanGroups = .ok groups) :
    groups.map Prod.fst = ["standard", "clip_recall", "content_recall"] := by
  have hp : ∀ (a : String × List (String × ScorePath)) (b : String × List (String × Rat)),
      (do
        let ms ← mapE (fun kp : String × ScorePath => do
          let vs ← mapE (fun s => getScorePath s kp.2) samples
          pure (kp.1, npMean vs)) a.2
        pure (a.1, ms)) = .ok b → b.1 = a.1 := by
    intro a b hab
    cases hms : mapE (fun kp : String × ScorePath => do
        let vs ← mapE (fun s => getScorePath s kp.2) samples
        pure (kp.1, npMean vs)) a.2 with
    | error e =>
      simp only [hms, bind_error_reduce] at hab
      exact Except.noConfusion hab
    | ok ms =>
      simp only [hms, bind_ok_reduce] at hab
      exact (congrArg Prod.fst (Except.ok.inj hab)).symm
  exact mapE_map_eq _ Prod.fst Prod.fst meanGroups groups hgr hp

/-- C8: in a successful aggregation, `hallucinated_objects_percentage` is
the sum of the per-sample `hallucinated_object_count` values divided by the
sum of the `object_count` values, and `hallucinated_captions_percentage` is
the number of samples with a positive hallucination count divided by the
sample count (both denominators are necessarily nonzero on success). -/
theorem aggregate_hallucinations_formulas (samples : List Sample) (r : MetricsReport)
    (h : extractAndAggregateMetrics samples = .ok r) :
    ∃ hcs ocs : List Int,
      mapE (fun s => pyGetCount s.hallucinated_object_count "hallucinated_object_count") samples
        = .ok hcs ∧
      mapE (fun s => pyGetCount s.object_count "object_count") samples = .ok ocs ∧
      ((ocs.sum : Int) : Rat) ≠ 0 ∧ samples ≠ [] ∧
      lookupGroup r "hallucinations" "hallucinated_objects_percentage"
        = some (((hcs.sum : Int) : Rat) / ((ocs.sum : Int) : Rat)) ∧
      lookupGroup r "hallucinations" "hallucinated_captions_percentage"
        = some ((((hcs.filter (fun n => 0 < n)).length : Nat) : Rat)
            / ((samples.length : Nat) : Rat)) := by
  obtain ⟨groups, hcs, ocs, objPct, capPct, hvs, hgr, hh, ho, hd, hc, hv, hr⟩ :=
    extract_ok_parts samples r h
  obtain ⟨hbne, hobj⟩ := pyDiv_ok _ _ _ hd
  obtain ⟨hlne, hcap⟩ := pyDiv_ok _ _ _ hc
  have hnone : alookup groups "hallucinations" = none := by
    apply alookup_eq_none_of_not_mem
    rw [groups_fst_names samples groups hgr]
    decide
  have hlook : ∀ k v, alookup
      [("hallucinated_objects_percentage", objPct),
       ("hallucinated_captions_percentage", capPct),
       ("average_hungarian_matching_score", npMean hvs)] k = v →
      lookupGroup r "hallucinations" k = v := by
    intro k v hk
    unfold lookupGroup
    rw [hr, alookup_append_none _ _ _ hnone]
    simp only [alookup, if_pos rfl]
    exact hk
  refine ⟨hcs, ocs, hh, ho, hbne, ?_, ?_, ?_⟩
  · intro hnil
    apply hlne
    rw [hnil]
    rfl
  · rw [hobj] at hlook
    exact hlook "hallucinated_objects_percentage" _ (by simp [alookup])
  · rw [hcap] at hlook
    exact hlook "hallucinated_captions_percentage" _ (by simp [alookup])

/-- Witness for C8 at the spec's concrete counts: samples with
`(hallucinated_object_count, object_count)` equal to `(1,4), (0,3), (2,5)`
aggregate to `hallucinated_objects_percentage = 3/12 = 1/4` and
`hallucinated_captions_percentage = 2/3`. -/
theorem aggregate_hallucinations_formulas_witness :
    ∃ r, extractAndAggregateMetrics demo3 = .ok r ∧
      lookupGroup r "hallucinations" "hallucinated_objects_percentage" = some (1/4) ∧
      lookupGroup r "hallucinations" "hallucinated_captions_percentage" = some (2/3) := by
  obtain ⟨r, hr⟩ := isOkE_exists_ok (extractAndAggregateMetrics demo3) (by decide)
  obtain ⟨hcs, ocs, hh, ho, hne, hnil, hobj, hcap⟩ := aggregate_hallucinations_formulas demo3 r hr
  have e1 : hcs = [1, 0, 2] := by
    have h2 : mapE (fun s => pyGetCount s.hallucinated_object_count "hallucinated_object_count")
        demo3 = .ok [(1 : Int), 0, 2] := rfl
    rw [h2] at hh
    exact Except.ok.inj hh.symm
  have e2 : ocs = [4, 3, 5] := by
    have h2 : mapE (fun s => pyGetCount s.object_count "object_count") demo3
        = .ok [(4 : Int), 3, 5] := rfl
    rw [h2] at ho
    exact Except.ok.inj ho.symm
  subst e1
  subst e2
  have v1 : ((([(1 : Int), 0, 2].sum : Int) : Rat) / (([(4 : Int), 3, 5].sum : Int) : Rat))
      = 1/4 := by
    norm_num [List.sum_cons, List.sum_nil]
  have v2 : ((([(1 : Int), 0, 2].filter (fun n => 0 < n)).length : Nat) : Rat)
      / ((demo3.length : Nat) : Rat) = 2/3 := by
    norm_num [List.filter, demo3]
  rw [v1] at hobj
  rw [v2] at hcap
  exact ⟨r, hr, hobj, hcap⟩

/-- C7: every metric of the `standard`, `clip_recall` and `content_recall`
groups of a successful metrics report equals the arithmetic mean, over all
samples, of the scalar extracted at that metric's fixed path inside
`scores`. -/
theorem aggregate_mean_groups (samples : List Sample) (r : MetricsReport)
    (h : extractAndAggregateMetrics samples = .ok r)
    (g : String) (ks : List (String × ScorePath)) (hg : (g, ks) ∈ meanGroups)
    (n : String) (p : ScorePath) (hk : (n, p) ∈ ks) :
    ∃ vs, mapE (fun s => getScorePath s p) samples = .ok vs ∧
      lookupGroup r g n = some (npMean vs) := by
  obtain ⟨groups, hcs, ocs, objPct, capPct, hvs, hgr, -, -, -, -, -, hr⟩ :=
    extract_ok_parts samples r h
  obtain ⟨gr, hgrm, hfg⟩ := mapE_mem_ok _ _ _ hgr (g, ks) hg
  have hfg' : (do
      let ms ← mapE (fun kp : String × ScorePath => do
        let vs ← mapE (fun s => getScorePath s kp.2) samples
        pure (kp.1, npMean vs)) ks
      pure (g, ms)) = .ok gr := hfg
  cases hms : mapE (fun kp : String × ScorePath => do
      let vs ← mapE (fun s => getScorePath s kp.2) samples
      pure (kp.1, npMean vs)) ks with
  | error e =>
    simp only [hms, bind_error_reduce] at hfg'
    exact Except.noConfusion hfg'
  | ok ms =>
  simp only [hms, bind_ok_reduce] at hfg'
  have hgm : (g, ms) = gr := Except.ok.inj hfg'
  obtain ⟨m, hmm, hfm⟩ := mapE_mem_ok _ _ _ hms (n, p) hk
  have hfm' : (do
      let vs ← mapE (fun s => getScorePath s p) samples
      pure (n, npMean vs)) = .ok m := hfm
  cases hvs2 : mapE (fun s => getScorePath s p) samples with
  | error e =>
    simp only [hvs2, bind_error_reduce] at hfm'
    exact Except.noConfusion hfm'
  | ok vs =>
  simp only [hvs2, bind_ok_reduce] at hfm'
  have hm : m = (n, npMean vs) := (Except.ok.inj hfm').symm
  refine ⟨vs, rfl, ?_⟩
  have hnodup : (groups.map Prod.fst).Nodup := by
    rw [groups_fst_names samples groups hgr]
    decide
  have halook : alookup groups g = some ms :=
    alookup_of_mem_nodup _ _ _ hnodup (by rw [hgm]; exact hgrm)
  have happ : alookup (groups ++
      [("hallucinations",
        [("hallucinated_objects_percentage", objPct),
         ("hallucinated_captions_percentage", capPct),
         ("average_hungarian_matching_score", npMean hvs)])]) g = some ms :=
    alookup_append_some _ _ _ _ halook
  have hmsfst : ms.map Prod.fst = ks.map Prod.fst := by
    apply mapE_map_eq _ Prod.fst Prod.fst ks ms hms
    intro a b hab
    have hab' : (do
        let vs ← mapE (fun s => getScorePath s a.2) samples
        pure (a.1, npMean vs)) = .ok b := hab
    cases hva : mapE (fun s => getScorePath s a.2) samples with
    | error e =>
      simp only [hva, bind_error_reduce] at hab'
      exact Except.noConfusion hab'
    | ok vsa =>
      simp only [hva, bind_ok_reduce] at hab'
      exact (congrArg Prod.fst (Except.ok.inj hab')).symm
  have hknodup : (ks.map Prod.fst).Nodup := by
    simp only [meanGroups, List.mem_cons, List.mem_singleton, Prod.mk.injEq,
      List.not_mem_nil, or_false] at hg
    rcases hg with ⟨-, rfl⟩ | ⟨-, rfl⟩ | ⟨-, rfl⟩ <;> decide
  have hmem : (n, npMean vs) ∈ ms := by
    rw [← hm]
    exact hmm
  have hfinal : alookup ms n = some (npMean vs) :=
    alookup_of_mem_nodup _ _ _ (by rw [hmsfst]; exact hknodup) hmem
  unfold lookupGroup
  rw [hr, happ]
  exact hfinal

/-- Witness for C7 at the spec's concrete values: three samples whose
`scores.candidate_summary_bleu_1` values are `0.2, 0.4, 0.6` aggregate to
`standard.candidate_summary_bleu_1 = 0.4`. -/
theorem aggregate_mean_groups_witness :
    ∃ r, extractAndAggregateMetrics demo3 = .ok r ∧
      lookupGroup r "standard" "candidate_summary_bleu_1" = some (2/5) := by
  obtain ⟨r, hr⟩ := isOkE_exists_ok (extractAndAggregateMetrics demo3) (by decide)
  obtain ⟨vs, hvs, hl⟩ := aggregate_mean_groups demo3 r hr "standard" standardKeys
    (by simp [meanGroups]) "candidate_summary_bleu_1" (.top "candidate_summary_bleu_1")
    (by simp [standardKeys])
  have e : vs = [1/5, 2/5, 3/5] := by
    have h2 : mapE (fun s => getScorePath s (ScorePath.top "candidate_summary_bleu_1")) demo3
        = .ok [(1 : Rat)/5, 2/5, 3/5] := rfl
    rw [h2] at hvs
    exact Except.ok.inj hvs.symm
  subst e
  have hv : npMean [(1 : Rat)/5, 2/5, 3/5] = 2/5 := by
    norm_num [npMean, List.sum_cons, List.sum_nil]
  rw [hv] at hl
  exact ⟨r, hr, hl⟩

/-!
## Pipeline idempotence (C1)
-/

theorem list_map_id_of_mem {α : Type} (l : List α) (f : α → α) (h : ∀ a ∈ l, f a = a) :
    l.map f = l := by
  induction l with
  | nil => rfl
  | cons a as ih =>
    simp only [List.map, h a (by simp)]
    rw [ih (fun x hx => h x (by simp [hx]))]

theorem stage1Sample_skip (C : Config) (s : Sample)
    (h1 : s.candidates.isSome = true) (h2 : s.baseline.isSome = true) :
    stage1Sample C false s = .ok s := by
  obtain ⟨cs, hcs⟩ := Option.isSome_iff_exists.1 h1
  obtain ⟨b, hb⟩ := Option.isSome_iff_exists.1 h2
  simp [stage1Sample, stage1SetCandidates, hcs, hb]

theorem pluginSample_skip (C : Config) (name : String) (pl : String → Json) (s : Sample)
    (h : pluginEntryPresent s name = true) : pluginSample C name pl false s = s := by
  cases ho : s.plugin_outputs with
  | none => simp [pluginEntryPresent, ho] at h
  | some outs =>
    have h2 : entryIsNone outs name = false := by
      have := h
      simp only [pluginEntryPresent, ho, Bool.not_eq_true'] at this
      exact this
    simp [pluginSample, ho, h2]

theorem pluginStage_skip (C : Config) (ss : List Sample)
    (h : ∀ s ∈ ss, ∀ np ∈ C.plugins, pluginEntryPresent s np.1 = true) :
    pluginStage C false ss = ss := by
  unfold pluginStage
  suffices H : ∀ ps : List (String × (String → Json)),
      (∀ s ∈ ss, ∀ np ∈ ps, pluginEntryPresent s np.1 = true) →
      ps.foldl (fun ss np => ss.map (pluginSample C np.1 np.2 false)) ss = ss by
    exact H C.plugins h
  intro ps
  induction ps with
  | nil => intro _; rfl
  | cons np rest ih =>
    intro hps
    rw [List.foldl_cons,
      list_map_id_of_mem ss _ (fun s hs => pluginSample_skip C np.1 np.2 s
        (hps s hs np (by simp)))]
    exact ih (fun s hs np' hnp' => hps s hs np' (by simp [hnp']))

theorem summarySample_skip (C : Config) (s : Sample)
    (h1 : s.candidate_summary.isSome = true) (h2 : s.reference_summary.isSome = true) :
    summarySample C false s = .ok s := by
  obtain ⟨a, ha⟩ := Option.isSome_iff_exists.1 h1
  obtain ⟨b, hb⟩ := Option.isSome_iff_exists.1 h2
  simp [summarySample, ha, hb]

theorem addScoreIfAbsent_skip (k : String) (v : ScoreVal) (s : Sample)
    (h : scoreKeyPresent s k = true) : addScoreIfAbsent k v s = s := by
  cases hsc : s.scores with
  | none => simp [scoreKeyPresent, hsc] at h
  | some sc =>
    have h2 : (alookup sc k).isSome = true := by
      have := h
      simp only [scoreKeyPresent, hsc] at this
      exact this
    obtain ⟨w, hw⟩ := Option.isSome_iff_exists.1 h2
    simp [addScoreIfAbsent, ensureScores, hsc, hw]

theorem foldl_addScore_skip (keys : List String) (f : String → ScoreVal) (s : Sample)
    (h : ∀ k ∈ keys, scoreKeyPresent s k = true) :
    keys.foldl (fun t k => addScoreIfAbsent k (f k) t) s = s := by
  induction keys with
  | nil => rfl
  | cons k ks ih =>
    rw [List.foldl_cons, addScoreIfAbsent_skip k (f k) s (h k (by simp))]
    exact ih (fun k' hk' => h k' (by simp [hk']))

theorem computeAndAddBaseMetrics_skip (C : Config) (ss : List Sample)
    (h : ∀ s ∈ ss, ∀ k ∈ baseScoreKeys, scoreKeyPresent s k = true) :
    computeAndAddBaseMetrics C ss = ss := by
  unfold computeAndAddBaseMetrics
  exact list_map_id_of_mem _ _ (fun s hs => foldl_addScore_skip _ _ _ (h s hs))

theorem computeAndAddMauveScore_skip (C : Config) (ss : List Sample)
    (h : ∀ s ∈ ss, ∀ k ∈ mauveScoreKeys, scoreKeyPresent s k = true) :
    computeAndAddMauveScore C ss = ss := by
  unfold computeAndAddMauveScore
  exact list_map_id_of_mem _ _ (fun s hs => foldl_addScore_skip _ _ _ (h s hs))

theorem computeAndAddClipRecall_skip (C : Config) (ss : List Sample)
    (h : ∀ s ∈ ss, ∀ k ∈ clipScoreKeys, scoreKeyPresent s k = true) :
    computeAndAddClipRecall C ss = ss := by
  unfold computeAndAddClipRecall
  exact list_map_id_of_mem _ _ (fun s hs => foldl_addScore_skip _ _ _ (h s hs))

theorem computeAndAddContentRecall_skip (C : Config) (ss : List Sample)
    (h : ∀ s ∈ ss, scoreKeyPresent s "content_recall" = true) :
    computeAndAddContentRecall C ss = ss := by
  unfold computeAndAddContentRecall
  exact list_map_id_of_mem _ _ (fun s hs => addScoreIfAbsent_skip _ _ _ (h s hs))

theorem computeAndAddSelfBleu_skip (C : Config) (ss : List Sample)
    (h : ∀ s ∈ ss, scoreKeyPresent s "self_bleu" = true) :
    computeAndAddSelfBleu C ss = ss := by
  unfold computeAndAddSelfBleu
  exact list_map_id_of_mem _ _ (fun s hs => addScoreIfAbsent_skip _ _ _ (h s hs))

theorem computeAndAddObjectHallucinations_skip (C : Config) (ss : List Sample)
    (h : ∀ s ∈ ss, s.hallucinated_object_count.isSome = true ∧ s.object_count.isSome = true ∧
      scoreKeyPresent s "hungarian_matching_score" = true) :
    computeAndAddObjectHallucinations C ss = ss := by
  unfold computeAndAddObjectHallucinations
  apply list_map_id_of_mem
  intro s hs
  obtain ⟨hhoc, hoc, hsc⟩ := h s hs
  obtain ⟨n1, hn1⟩ := Option.isSome_iff_exists.1 hhoc
  obtain ⟨n2, hn2⟩ := Option.isSome_iff_exists.1 hoc
  simp only [hn1, hn2, Option.isNone_some, Bool.false_eq_true, if_false]
  exact addScoreIfAbsent_skip _ _ _ hsc

/-- C1: on a sample list in which every stage's predicate reports "already
computed" for this run's configuration (candidates, baseline, all requested
plugin entries, both summaries, every collaborator score key and both
hallucination counters populated), every stage of the pipeline skips its
transform, so a successful run returns the input samples unchanged; hence a
second run — the rerun on the output of a completed run with both overwrite
flags false — yields exactly the same samples and the same metrics report. -/
theorem pipeline_idempotent (C : Config) (ss ss' : List Sample) (r : MetricsReport)
    (hD : ∀ s ∈ ss, sampleDone C s)
    (h : runPipeline C false false ss = .ok (ss', r)) :
    ss' = ss ∧ runPipeline C false false ss' = .ok (ss', r) := by
  have e1 : mapE (stage1Sample C false) ss = .ok ss :=
    mapE_id _ _ (fun s hs => stage1Sample_skip C s (hD s hs).1 (hD s hs).2.1)
  have e2 : pluginStage C false ss = ss :=
    pluginStage_skip C ss (fun s hs => (hD s hs).2.2.1)
  have e3 : mapE (summarySample C (effectiveSummaryOverwrite false false)) ss = .ok ss := by
    show mapE (summarySample C false) ss = .ok ss
    exact mapE_id _ _ (fun s hs =>
      summarySample_skip C s (hD s hs).2.2.2.1 (hD s hs).2.2.2.2.1)
  have hkey : ∀ s ∈ ss, ∀ k ∈ requiredScoreKeys, scoreKeyPresent s k = true :=
    fun s hs => (hD s hs).2.2.2.2.2.1
  have hsub : ∀ k, (k ∈ baseScoreKeys ∨ k ∈ mauveScoreKeys ∨ k ∈ clipScoreKeys ∨
      k ∈ ["content_recall", "self_bleu", "hungarian_matching_score"]) →
      k ∈ requiredScoreKeys := by
    intro k hk
    unfold requiredScoreKeys
    rcases hk with h' | h' | h' | h' <;> simp [h']
  have e4 : computeAndAddBaseMetrics C ss = ss :=
    computeAndAddBaseMetrics_skip C ss
      (fun s hs k hk => hkey s hs k (hsub k (Or.inl hk)))
  have e5 : computeAndAddMauveScore C ss = ss :=
    computeAndAddMauveScore_skip C ss
      (fun s hs k hk => hkey s hs k (hsub k (Or.inr (Or.inl hk))))
  have e6 : computeAndAddClipRecall C ss = ss :=
    computeAndAddClipRecall_skip C ss
      (fun s hs k hk => hkey s hs k (hsub k (Or.inr (Or.inr (Or.inl hk)))))
  have e7 : computeAndAddContentRecall C ss = ss :=
    computeAndAddContentRecall_skip C ss
      (fun s hs => hkey s hs _ (hsub _ (Or.inr (Or.inr (Or.inr (by simp))))))
  have e8 : computeAndAddSelfBleu C ss = ss :=
    computeAndAddSelfBleu_skip C ss
      (fun s hs => hkey s hs _ (hsub _ (Or.inr (Or.inr (Or.inr (by simp))))))
  have e9 : computeAndAddObjectHallucinations C ss = ss :=
    computeAndAddObjectHallucinations_skip C ss
      (fun s hs => ⟨(hD s hs).2.2.2.2.2.2.1, (hD s hs).2.2.2.2.2.2.2,
        hkey s hs _ (hsub _ (Or.inr (Or.inr (Or.inr (by simp)))))⟩)
  have hrun : ∀ m, extractAndAggregateMetrics ss = .ok m →
      runPipeline C false false ss = .ok (ss, m) := by
    intro m hm
    simp only [runPipeline, e1, e2, e3, e4, e5, e6, e7, e8, e9, hm, bind_ok_reduce]
    rfl
  simp only [runPipeline, e1, e2, e3, e4, e5, e6, e7, e8, e9, bind_ok_reduce] at h
  cases hm : extractAndAggregateMetrics ss with
  | error e =>
    rw [hm, bind_error_reduce] at h
    exact Except.noConfusion h
  | ok m =>
    rw [hm, bind_ok_reduce] at h
    have hpair : (ss, m) = (ss', r) := Except.ok.inj h
    have hss : ss = ss' := congrArg Prod.fst hpair
    have hmr : m = r := congrArg Prod.snd hpair
    refine ⟨hss.symm, ?_⟩
    rw [← hss, ← hmr]
    exact hrun m hm

set_option maxRecDepth 100000 in
/-- Witness for C1: running the pipeline on a fully populated one-sample
list returns it unchanged, and rerunning on the output reproduces the same
samples and report. -/
theorem pipeline_idempotent_witness :
    ∃ out, runPipeline demoConfig false false demoDoneSamples = .ok out ∧
      out.1 = demoDoneSamples ∧ runPipeline demoConfig false false out.1 = .ok out := by
  obtain ⟨out, hout⟩ :=
    isOkE_exists_ok (runPipeline demoConfig false false demoDoneSamples) (by decide)
  obtain ⟨h1, h2⟩ :=
    pipeline_idempotent demoConfig demoDoneSamples out.1 out.2 (by decide) hout
  exact ⟨out, hout, h1, h2⟩
